import Mathlib

/-!
Verification of the MerMarkEditor native shell (src/src-tauri/src/lib.rs).

The shell is a Tauri application exposing five commands
(`get_open_file_path`, `get_all_windows`, `get_current_window_label`,
`create_new_window`, `transfer_tab_to_window`), a single-instance relaunch
handler, a launch-intake `setup` hook, and a close-request policy in `run`.

The embedding below models the host runtime explicitly:
- the live window registry is a list of window labels (Tauri's
  `webview_windows()` map keyed by label, so it is duplicate-free);
- every `emit` and `set_focus` call the shell makes is recorded in an event
  log / focus log (the call is the shell's observable action; whether the
  host reports success is an oracle boolean that only determines the
  `Result` value the shell sees, mirroring the fallible Tauri API);
- `OpenFileState` is the `Option String` guarded by the mutex; commands are
  individually atomic, so state is passed functionally;
- `WINDOW_COUNTER` is the `AtomicU32`: `fetch_add(1)` returns the previous
  value and stores the wrapping successor modulo 2^32.
-/

namespace MerMark

/-- 2^32, the modulus of the `AtomicU32` window counter. -/
def U32_MOD : Nat := 2 ^ 32

/-- `WINDOW_COUNTER.fetch_add(1, SeqCst)`: returns the previous value and the
new stored value; `AtomicU32::fetch_add` wraps around on overflow. -/
def fetchAdd (counter : Nat) : Nat × Nat :=
  (counter, (counter + 1) % U32_MOD)

/-- Payload for transferring tabs between windows (struct `TabTransferPayload`). -/
structure TabTransferPayload where
  file_path : String
  source_window : String
  target_window : String
deriving DecidableEq, Repr

/-- An event emitted by the shell to a window's content layer: either
`"tab-transfer"` with a `TabTransferPayload` or `"open-file"` with a path. -/
inductive Event where
  | tabTransfer (payload : TabTransferPayload)
  | openFile (path : String)
deriving DecidableEq, Repr

/-- The host runtime state observable from the shell: the registry of live
window labels, the log of emitted events (label, event), the log of focus
requests, and the log of initial navigation targets given to built windows. -/
structure WindowHost where
  windows : List String
  emitted : List (String × Event)
  focusRequests : List String
  navigations : List (String × String)
deriving DecidableEq, Repr

/-- Process-wide state: the `OpenFileState` mutex content and the host. -/
structure ProcessState where
  openFile : Option String
  host : WindowHost
deriving DecidableEq, Repr

/-- Command `get_open_file_path`: `state.0.lock().unwrap().take()` — returns
the stored path and leaves `None` behind. Result is (returned value, new state). -/
def get_open_file_path (state : Option String) : Option String × Option String :=
  (state, none)

/-- Command `get_all_windows`: the keys of `app.webview_windows()`. -/
def get_all_windows (host : WindowHost) : List String :=
  host.windows

/-- Rust's `str::ends_with` with a string pattern: a suffix test. Stated on
the character sequence, which for valid UTF-8 agrees with Rust's byte-slice
suffix comparison (UTF-8 is self-synchronizing). Case-sensitive. -/
def ends_with (s pat : String) : Bool :=
  pat.data.isSuffixOf s.data

/-- The UTF-8 byte values of a string (the list underlying `String.toUTF8`). -/
def utf8Bytes (s : String) : List Nat :=
  (s.data.flatMap String.utf8EncodeChar).map (fun b => b.toNat)

/-- Percent-encoding of the byte values 0–15 as used by the `urlencoding`
crate (uppercase hexadecimal digits). -/
def hexUpperDigit (n : Nat) : Char :=
  if n < 10 then Char.ofNat (48 + n) else Char.ofNat (55 + n)

/-- The bytes the `urlencoding` crate leaves unencoded: ASCII alphanumerics
and `-`, `.`, `_`, `~`. -/
def isUrlSafeByte (b : Nat) : Bool :=
  (65 ≤ b && b ≤ 90) || (97 ≤ b && b ≤ 122) || (48 ≤ b && b ≤ 57) ||
    b == 45 || b == 46 || b == 95 || b == 126

/-- Encoding of a single UTF-8 byte by `urlencoding::encode`. -/
def encodeByte (b : Nat) : List Char :=
  if isUrlSafeByte b then [Char.ofNat b]
  else ['%', hexUpperDigit (b / 16), hexUpperDigit (b % 16)]

/-- `urlencoding::encode`: percent-encode the UTF-8 bytes of a string. -/
def urlencode (s : String) : String :=
  ⟨(utf8Bytes s).foldr (fun b acc => encodeByte b ++ acc) []⟩

/-- Command `transfer_tab_to_window`. Looks up `target_window` in the registry;
if absent, returns `Err("Window {target_window} not found")` without touching
any state. If present, emits `"tab-transfer"` with the payload to the target
(logged), then requests focus for it (logged); `emitOk` and `focusOk` are the
host's success reports for the two fallible calls, and `emitErr` / `focusErr`
the stringified errors propagated by `map_err(|e| e.to_string())?`. -/
def transfer_tab_to_window (host : WindowHost)
    (file_path source_window target_window : String)
    (emitOk focusOk : Bool) (emitErr focusErr : String) :
    Except String Unit × WindowHost :=
  let payload : TabTransferPayload :=
    { file_path := file_path, source_window := source_window,
      target_window := target_window }
  if host.windows.contains target_window then
    let host1 := { host with
      emitted := host.emitted ++ [(target_window, Event.tabTransfer payload)] }
    if emitOk then
      let host2 := { host1 with
        focusRequests := host1.focusRequests ++ [target_window] }
      if focusOk then (Except.ok (), host2) else (Except.error focusErr, host2)
    else
      (Except.error emitErr, host1)
  else
    (Except.error ("Window " ++ target_window ++ " not found"), host)

/-- Command `create_new_window`. Allocates `window_id` by `fetch_add` on the
counter, formats `window_label = format!("window-{}", window_id)`, computes the
navigation URL (`index.html?file={urlencoding::encode(path)}` when a path is
given, bare `index.html` otherwise), asks the host to build the window
(`buildOk` reports success; on success the label joins the registry and the
URL is logged), then requests focus (`focusOk`); errors are stringified. -/
def create_new_window (host : WindowHost) (counter : Nat)
    (file_path : Option String) (buildOk focusOk : Bool)
    (buildErr focusErr : String) :
    Except String String × WindowHost × Nat :=
  let window_id := (fetchAdd counter).1
  let counter1 := (fetchAdd counter).2
  let window_label := "window-" ++ Nat.repr window_id
  let url := match file_path with
    | some path => "index.html?file=" ++ urlencode path
    | none => "index.html"
  if buildOk then
    let host1 := { host with
      windows := host.windows ++ [window_label],
      navigations := host.navigations ++ [(window_label, url)] }
    let host2 := { host1 with
      focusRequests := host1.focusRequests ++ [window_label] }
    if focusOk then (Except.ok window_label, host2, counter1)
    else (Except.error focusErr, host2, counter1)
  else
    (Except.error buildErr, host, counter1)

/-- The `tauri_plugin_single_instance` callback. When the relaunch carries an
argument (`args.len() > 1`) ending in `".md"` or `".markdown"`, it emits
`"open-file"` with the path to the window labeled `"main"` (if live) and
requests focus for it; with an argument of any other suffix it does nothing;
with no argument it only requests focus for `"main"` (if live). Both `emit`
and `set_focus` results are discarded (`let _ =`), and `OpenFileState` is not
touched anywhere in the callback. -/
def single_instance_handler (s : ProcessState) (args : List String) :
    ProcessState :=
  if 1 < args.length then
    let file_path := args.getD 1 ""
    if ends_with file_path ".md" || ends_with file_path ".markdown" then
      if s.host.windows.contains "main" then
        { s with host := { s.host with
            emitted := s.host.emitted ++ [("main", Event.openFile file_path)],
            focusRequests := s.host.focusRequests ++ ["main"] } }
      else s
    else s
  else
    if s.host.windows.contains "main" then
      { s with host := { s.host with
          focusRequests := s.host.focusRequests ++ ["main"] } }
    else s

/-- The `setup` hook's launch intake: reads `std::env::args()`; when an
argument is present (`args.len() > 1`) and ends in `".md"` or `".markdown"`,
stores it into `OpenFileState`; otherwise leaves everything unchanged. It
never produces an error (the hook returns `Ok(())` on every path). -/
def setup_intake (s : ProcessState) (args : List String) : ProcessState :=
  if 1 < args.length then
    let file_path := args.getD 1 ""
    if ends_with file_path ".md" || ends_with file_path ".markdown" then
      { s with openFile := some file_path }
    else s
  else s

/-- Outcome of a `CloseRequested` window event: either the default close is
allowed to proceed (last window: the process may exit) or it is prevented
(`api.prevent_close()`). -/
inductive CloseOutcome where
  | allowClose
  | prevented
deriving DecidableEq, Repr

/-- The `RunEvent::WindowEvent { CloseRequested }` handler in `run`. Counts
the live windows; if the count is at most 1 it returns, allowing the default
close (which destroys the requesting window and lets the process exit);
otherwise it destroys the window with the given label (if live) and calls
`api.prevent_close()`. The returned list is the registry after the request is
fully processed (the requesting window is destroyed in both branches). -/
def handle_close_requested (windows : List String) (label : String) :
    CloseOutcome × List String :=
  let window_count := windows.length
  if window_count ≤ 1 then
    (CloseOutcome.allowClose, windows.filter (fun l => l != label))
  else
    (CloseOutcome.prevented, windows.filter (fun l => l != label))

/-- A sequence of `n` successful `create_new_window` calls (host reports both
build and focus as succeeding), threading the host registry and the
`WINDOW_COUNTER` through; the list collects each call's returned value. -/
def runCreates : WindowHost → Nat → Nat → List (Except String String)
  | _, _, 0 => []
  | host, counter, n + 1 =>
    let r := create_new_window host counter none true true "" ""
    r.1 :: runCreates r.2.1 r.2.2 n

/-- The decimal digit characters of `n`, most significant first: the
fuel-free specification of core's `Nat.toDigits 10` used to reason about the
`format!("window-{}", id)` labels. -/
def digitsOf (n : Nat) : List Char :=
  if _h : n < 10 then [Nat.digitChar n]
  else
    have : n / 10 < n := Nat.div_lt_self (by omega) (by omega)
    digitsOf (n / 10) ++ [Nat.digitChar (n % 10)]

/-- Inverse of `Nat.digitChar` on decimal digits. -/
def decDigit (c : Char) : Nat := c.toNat - 48

/-- Decimal decoding of a digit-character list, most significant first. -/
def decodeDigits (ds : List Char) : Nat :=
  ds.foldl (fun acc c => acc * 10 + decDigit c) 0

/-- With enough fuel, core's `Nat.toDigitsCore` agrees with `digitsOf`. -/
theorem toDigitsCore_eq_digitsOf (fuel : Nat) :
    ∀ (n : Nat) (ds : List Char), 0 < fuel → n < 10 ^ fuel →
      Nat.toDigitsCore 10 fuel n ds = digitsOf n ++ ds := by
  induction fuel with
  | zero => intro n ds h _; omega
  | succ f ih =>
    intro n ds _ hlt
    simp only [Nat.toDigitsCore]
    by_cases hz : n / 10 = 0
    · have hn : n < 10 := by omega
      rw [if_pos hz]
      unfold digitsOf
      rw [dif_pos hn, Nat.mod_eq_of_lt hn]
      rfl
    · have hn : ¬ n < 10 := by omega
      have hf0 : 0 < f := by
        by_contra hc
        have hf : f = 0 := by omega
        subst hf
        norm_num at hlt
        omega
      have hdiv : n / 10 < 10 ^ f := by
        rw [Nat.div_lt_iff_lt_mul (by norm_num)]
        calc n < 10 ^ (f + 1) := hlt
          _ = 10 ^ f * 10 := pow_succ 10 f
      rw [if_neg hz, ih (n / 10) (Nat.digitChar (n % 10) :: ds) hf0 hdiv]
      conv_rhs => rw [digitsOf]
      rw [dif_neg hn]
      simp

/-- Core's `Nat.toDigits 10` agrees with `digitsOf`. -/
theorem toDigits_eq_digitsOf (n : Nat) : Nat.toDigits 10 n = digitsOf n := by
  have h1 : n < 10 ^ (n + 1) :=
    lt_of_lt_of_le (Nat.lt_pow_self (by norm_num) n)
      (Nat.pow_le_pow_right (by norm_num) (Nat.le_succ n))
  have h2 := toDigitsCore_eq_digitsOf (n + 1) n [] (Nat.succ_pos n) h1
  simpa [Nat.toDigits] using h2

/-- `decDigit` inverts `Nat.digitChar` on decimal digits. -/
theorem decDigit_digitChar : ∀ d, d < 10 → decDigit (Nat.digitChar d) = d := by
  decide

/-- Decoding the digits of `n` recovers `n`. -/
theorem decodeDigits_digitsOf (n : Nat) : decodeDigits (digitsOf n) = n := by
  induction n using Nat.strong_induction_on with
  | _ n ih =>
    by_cases h : n < 10
    · unfold digitsOf
      rw [dif_pos h]
      simp [decodeDigits, decDigit_digitChar n h]
    · unfold digitsOf
      rw [dif_neg h]
      have ihd := ih (n / 10) (Nat.div_lt_self (by omega) (by omega))
      unfold decodeDigits at ihd ⊢
      rw [List.foldl_append, ihd]
      have hm := decDigit_digitChar (n % 10) (Nat.mod_lt n (by omega))
      simp [hm]
      omega

/-- `Nat.repr` (the `Display` formatting of the window counter) is injective. -/
theorem repr_injective (m n : Nat) (h : Nat.repr m = Nat.repr n) : m = n := by
  have hd : digitsOf m = digitsOf n := by
    have h2 := congrArg String.data h
    simpa [Nat.repr, List.asString, toDigits_eq_digitsOf] using h2
  calc m = decodeDigits (digitsOf m) := (decodeDigits_digitsOf m).symm
    _ = decodeDigits (digitsOf n) := by rw [hd]
    _ = n := decodeDigits_digitsOf n

/-- The `format!("window-{}", id)` labels are injective in the id. -/
theorem windowLabel_injective (m n : Nat)
    (h : "window-" ++ Nat.repr m = "window-" ++ Nat.repr n) : m = n := by
  apply repr_injective
  have hd := congrArg String.data h
  simp only [String.data_append] at hd
  have hc := List.append_cancel_left hd
  exact congrArg String.mk hc

/-- The `k`-th of `n` successful `create_new_window` calls returns the label
formatted from counter value `(counter + k) % 2^32`. -/
theorem runCreates_getD (n : Nat) :
    ∀ (host : WindowHost) (counter k : Nat), k < n → counter < U32_MOD →
      (runCreates host counter n).getD k (Except.error "") =
        Except.ok ("window-" ++ Nat.repr ((counter + k) % U32_MOD)) := by
  induction n with
  | zero => intro host counter k hk _; omega
  | succ m ih =>
    intro host counter k hk hc
    cases k with
    | zero =>
      simp [runCreates, create_new_window, fetchAdd, Nat.mod_eq_of_lt hc]
    | succ k =>
      have hstep : (counter + 1) % U32_MOD < U32_MOD :=
        Nat.mod_lt _ (by norm_num [U32_MOD])
      have hunfold : runCreates host counter (m + 1) =
          (create_new_window host counter none true true "" "").1 ::
            runCreates (create_new_window host counter none true true "" "").2.1
              ((counter + 1) % U32_MOD) m := rfl
      rw [hunfold, List.getD_cons_succ,
        ih ((create_new_window host counter none true true "" "").2.1)
          ((counter + 1) % U32_MOD) k (by omega) hstep, Nat.mod_add_mod,
        show counter + 1 + k = counter + (k + 1) from by omega]

/-- C1: `get_open_file_path` consumes the stored path: the first call returns
the stored value (if any) and clears the state; a second call without an
intervening store returns none and leaves the state empty. -/
theorem get_open_file_path_take_once (st : Option String) :
    (get_open_file_path st).1 = st ∧
    (get_open_file_path st).2 = none ∧
    (get_open_file_path (get_open_file_path st).2).1 = none ∧
    (get_open_file_path (get_open_file_path st).2).2 = none := by
  simp [get_open_file_path]

/-- C2 (counterexample): the window counter is a wrapping `AtomicU32`, so the
claim "for every sequence of createWindow calls the returned identities are
pairwise distinct" fails: in a run of 2^32 + 1 successful calls from a fresh
process, call 0 and call 2^32 return the same label. -/
theorem runCreates_label_reused_after_wrap :
    (runCreates ⟨[], [], [], []⟩ 1 (U32_MOD + 1)).getD 0 (Except.error "") =
      (runCreates ⟨[], [], [], []⟩ 1 (U32_MOD + 1)).getD U32_MOD
        (Except.error "") ∧
    (0 : Nat) ≠ U32_MOD := by
  constructor
  · rw [runCreates_getD (U32_MOD + 1) _ 1 0 (by omega) (by norm_num [U32_MOD]),
      runCreates_getD (U32_MOD + 1) _ 1 U32_MOD (by omega)
        (by norm_num [U32_MOD])]
    norm_num [U32_MOD]
  · norm_num [U32_MOD]

/-- C2 (amended): as long as fewer than 2^32 windows are created over the
process lifetime, the labels returned by successive `create_new_window` calls
from a fresh process are formatted from the counter values 1, 2, 3, …, which
are strictly increasing in allocation order, and any two labels from distinct
calls are distinct (so no label is ever reused, destroyed or not). -/
theorem create_new_window_labels_distinct_below_u32 (host : WindowHost)
    (n i j : Nat) (hn : n < U32_MOD) (hij : i < j) (hjn : j < n) :
    (runCreates host 1 n).getD i (Except.error "") =
        Except.ok ("window-" ++ Nat.repr (1 + i)) ∧
    (runCreates host 1 n).getD j (Except.error "") =
        Except.ok ("window-" ++ Nat.repr (1 + j)) ∧
    1 + i < 1 + j ∧
    ("window-" ++ Nat.repr (1 + i)) ≠ ("window-" ++ Nat.repr (1 + j)) := by
  have h1 : (1 : Nat) < U32_MOD := by norm_num [U32_MOD]
  have hi : (1 + i) % U32_MOD = 1 + i := Nat.mod_eq_of_lt (by omega)
  have hj : (1 + j) % U32_MOD = 1 + j := Nat.mod_eq_of_lt (by omega)
  refine ⟨?_, ?_, by omega, ?_⟩
  · rw [runCreates_getD n host 1 i (by omega) h1, hi]
  · rw [runCreates_getD n host 1 j hjn h1, hj]
  · intro hcontra
    have := windowLabel_injective _ _ hcontra
    omega

/-- C2 witness: in a run of three creations the first two labels are
`window-1` and `window-2`, distinct and increasing. -/
theorem create_new_window_labels_distinct_below_u32_witness :
    (runCreates ⟨[], [], [], []⟩ 1 3).getD 0 (Except.error "") =
        Except.ok ("window-" ++ Nat.repr (1 + 0)) ∧
    (runCreates ⟨[], [], [], []⟩ 1 3).getD 1 (Except.error "") =
        Except.ok ("window-" ++ Nat.repr (1 + 1)) ∧
    1 + 0 < 1 + 1 ∧
    ("window-" ++ Nat.repr (1 + 0)) ≠ ("window-" ++ Nat.repr (1 + 1)) :=
  create_new_window_labels_distinct_below_u32 ⟨[], [], [], []⟩ 3 0 1
    (by norm_num [U32_MOD]) (by norm_num) (by norm_num)

/-- C4: transferring a tab to a window label that is not live returns
`Err("Window {target} not found")` immediately and leaves the host state
(registry, event log, focus log, navigations) completely unchanged. -/
theorem transfer_tab_target_not_found (host : WindowHost)
    (file_path source_window target_window : String)
    (emitOk focusOk : Bool) (emitErr focusErr : String)
    (h : host.windows.contains target_window = false) :
    transfer_tab_to_window host file_path source_window target_window
        emitOk focusOk emitErr focusErr =
      (Except.error ("Window " ++ target_window ++ " not found"), host) := by
  have hmem : target_window ∉ host.windows := by simpa using h
  simp [transfer_tab_to_window, hmem]

/-- C4 witness: transferring `a.md` to the dead window `window-99`. -/
theorem transfer_tab_target_not_found_witness :
    (⟨["window-1"], [], [], []⟩ : WindowHost).windows.contains "window-99" =
        false ∧
    transfer_tab_to_window ⟨["window-1"], [], [], []⟩ "a.md" "window-1"
        "window-99" true true "" "" =
      (Except.error ("Window " ++ "window-99" ++ " not found"),
        ⟨["window-1"], [], [], []⟩) :=
  ⟨by decide,
    transfer_tab_target_not_found ⟨["window-1"], [], [], []⟩ "a.md" "window-1"
      "window-99" true true "" "" (by decide)⟩

/-- C10: when the target window is live, the emit succeeds and the focus
request fails, `transfer_tab_to_window` returns an error even though the
`tab-transfer` payload was already delivered to the target window. -/
theorem transfer_tab_focus_failure_after_emit (host : WindowHost)
    (file_path source_window target_window : String) (emitErr focusErr : String)
    (h : host.windows.contains target_window = true) :
    (transfer_tab_to_window host file_path source_window target_window
        true false emitErr focusErr).1 = Except.error focusErr ∧
    (target_window,
        Event.tabTransfer ⟨file_path, source_window, target_window⟩) ∈
      (transfer_tab_to_window host file_path source_window target_window
        true false emitErr focusErr).2.emitted := by
  have hmem : target_window ∈ host.windows := by simpa using h
  simp [transfer_tab_to_window, hmem]

/-- C10 witness: a failed focus on live `window-2` after a delivered payload. -/
theorem transfer_tab_focus_failure_after_emit_witness :
    (transfer_tab_to_window ⟨["window-2"], [], [], []⟩ "a.md" "window-1"
        "window-2" true false "" "focus failed").1 =
      Except.error "focus failed" ∧
    ("window-2", Event.tabTransfer ⟨"a.md", "window-1", "window-2"⟩) ∈
      (transfer_tab_to_window ⟨["window-2"], [], [], []⟩ "a.md" "window-1"
        "window-2" true false "" "focus failed").2.emitted :=
  transfer_tab_focus_failure_after_emit ⟨["window-2"], [], [], []⟩ "a.md"
    "window-1" "window-2" "" "focus failed" (by decide)

/-- The registry after a close request: the requesting window is destroyed in
both branches (by the default close or by the explicit `destroy`). -/
theorem handle_close_requested_snd (windows : List String) (label : String) :
    (handle_close_requested windows label).2 =
      windows.filter (fun l => l != label) := by
  dsimp only [handle_close_requested]
  split <;> rfl

/-- The close outcome is decided purely by the live window count. -/
theorem handle_close_requested_fst (windows : List String) (label : String) :
    (handle_close_requested windows label).1 =
      if windows.length ≤ 1 then CloseOutcome.allowClose
      else CloseOutcome.prevented := by
  dsimp only [handle_close_requested]
  split <;> simp [*]

/-- C3: a close request on live window `L` allows the default close (letting
the process exit) exactly when at most one window is live — and then the
registry is left empty, so the process never terminates with a non-empty
registry; otherwise only `L` is destroyed, the default close is suppressed,
and at least one window remains live. -/
theorem close_requested_policy (windows : List String) (label : String)
    (hnd : windows.Nodup) (hmem : label ∈ windows) :
    ((handle_close_requested windows label).1 = CloseOutcome.allowClose ↔
      windows.length ≤ 1) ∧
    ((handle_close_requested windows label).1 = CloseOutcome.allowClose →
      (handle_close_requested windows label).2 = []) ∧
    ((handle_close_requested windows label).1 = CloseOutcome.prevented →
      (handle_close_requested windows label).2 =
          windows.filter (fun l => l != label) ∧
      (handle_close_requested windows label).2 ≠ []) := by
  by_cases hle : windows.length ≤ 1
  · have hwin : windows = [label] := by
      cases windows with
      | nil => cases hmem
      | cons x t =>
        cases t with
        | nil => rw [show label = x from List.mem_singleton.mp hmem]
        | cons y t2 =>
          exfalso
          rw [List.length_cons, List.length_cons] at hle
          omega
    subst hwin
    refine ⟨by simp [handle_close_requested_fst], ?_, ?_⟩
    · intro _
      simp [handle_close_requested_snd]
    · intro hp
      rw [handle_close_requested_fst] at hp
      simp at hp
  · refine ⟨?_, ?_, ?_⟩
    · rw [handle_close_requested_fst, if_neg hle]
      constructor
      · intro hC; exact CloseOutcome.noConfusion hC
      · intro hc; exact absurd hc hle
    · intro hC
      rw [handle_close_requested_fst, if_neg hle] at hC
      exact CloseOutcome.noConfusion hC
    · intro _
      refine ⟨handle_close_requested_snd windows label, ?_⟩
      have h2 : 2 ≤ windows.length := by omega
      obtain ⟨x, y, t, rfl⟩ : ∃ x y t, windows = x :: y :: t := by
        cases windows with
        | nil => simp at h2
        | cons x t =>
          cases t with
          | nil =>
            exfalso
            rw [List.length_cons, List.length_nil] at h2
            omega
          | cons y t2 => exact ⟨x, y, t2, rfl⟩
      have hxmem : x ∉ y :: t := (List.nodup_cons.mp hnd).1
      have hxy : x ≠ y := fun hE => hxmem (by rw [hE]; exact List.mem_cons_self y t)
      rw [handle_close_requested_snd]
      intro hnil
      by_cases hxl : x = label
      · have hyl : y ≠ label := fun hE => hxy (by rw [hxl, hE])
        have hy : y ∈ List.filter (fun l => l != label) (x :: y :: t) := by
          simp [List.mem_filter, hyl]
        rw [hnil] at hy
        cases hy
      · have hx : x ∈ List.filter (fun l => l != label) (x :: y :: t) := by
          simp [List.mem_filter, hxl]
        rw [hnil] at hx
        cases hx

/-- C3 witness: closing one of two live windows destroys only it and keeps
the process running; closing the only live window empties the registry. -/
theorem close_requested_policy_witness :
    ((handle_close_requested ["window-1", "window-2"] "window-1").2 =
        ["window-1", "window-2"].filter (fun l => l != "window-1") ∧
      (handle_close_requested ["window-1", "window-2"] "window-1").2 ≠ []) ∧
    (handle_close_requested ["main"] "main").2 = [] :=
  ⟨(close_requested_policy ["window-1", "window-2"] "window-1" (by decide)
      (by decide)).2.2 (by decide),
    (close_requested_policy ["main"] "main" (by decide) (by decide)).2.1
      (by decide)⟩

/-- The single-instance callback never touches `OpenFileState`. -/
theorem single_instance_handler_openFile (s : ProcessState)
    (args : List String) :
    (single_instance_handler s args).openFile = s.openFile := by
  dsimp only [single_instance_handler]
  repeat' split
  all_goals rfl

/-- C5 is false on the code: with the state already consumed and `"main"`
live, a relaunch carrying `"notes.md"` leaves ProcessOpenFileState empty, so
the subsequent `get_open_file_path` returns none, not the relaunch path. -/
theorem single_instance_relaunch_then_take_returns_none :
    (get_open_file_path
        (single_instance_handler ⟨none, ⟨["main"], [], [], []⟩⟩
          ["app", "notes.md"]).openFile).1 = none ∧
    (get_open_file_path
        (single_instance_handler ⟨none, ⟨["main"], [], [], []⟩⟩
          ["app", "notes.md"]).openFile).1 ≠ some "notes.md" := by
  decide

/-- C5 (amended): a single-instance relaunch never stores into
ProcessOpenFileState — the markdown path travels as an `open-file` event to
the `"main"` window instead — so after `get_open_file_path` has emptied the
state, a relaunch leaves it empty and a subsequent `get_open_file_path`
still returns none. -/
theorem single_instance_relaunch_does_not_store (s : ProcessState)
    (args : List String) :
    (single_instance_handler s args).openFile = s.openFile ∧
    (get_open_file_path
        (single_instance_handler { s with openFile := none } args).openFile).1 =
      none :=
  ⟨single_instance_handler_openFile s args,
    single_instance_handler_openFile { s with openFile := none } args⟩

/-- C6: a relaunch whose argument ends in a markdown extension emits exactly
one `open-file` event carrying that path to the window labeled `"main"` and
requests focus for it when `"main"` is live; when `"main"` is not live, the
process state is left completely unchanged (no window created, no error). -/
theorem single_instance_markdown_routes_to_main (s : ProcessState)
    (args : List String) (hlen : 1 < args.length)
    (hmd : (ends_with (args.getD 1 "") ".md" ||
        ends_with (args.getD 1 "") ".markdown") = true) :
    (s.host.windows.contains "main" = true →
      single_instance_handler s args =
        { s with host := { s.host with
            emitted := s.host.emitted ++
              [("main", Event.openFile (args.getD 1 ""))],
            focusRequests := s.host.focusRequests ++ ["main"] } }) ∧
    (s.host.windows.contains "main" = false →
      single_instance_handler s args = s) := by
  constructor
  · intro hm
    simp only [single_instance_handler]
    rw [if_pos hlen, if_pos hmd, if_pos hm]
  · intro hm
    simp only [single_instance_handler]
    rw [if_pos hlen, if_pos hmd, hm, if_neg Bool.false_ne_true]

/-- C6 witness: relaunching with `report.markdown` while `"main"` is live
delivers exactly one `open-file` event to `"main"` and focuses it. -/
theorem single_instance_markdown_routes_to_main_witness :
    single_instance_handler ⟨none, ⟨["main"], [], [], []⟩⟩
        ["app", "report.markdown"] =
      ⟨none, ⟨["main"], [("main", Event.openFile "report.markdown")],
        ["main"], []⟩⟩ :=
  ((single_instance_markdown_routes_to_main ⟨none, ⟨["main"], [], [], []⟩⟩
      ["app", "report.markdown"] (by decide) (by decide)).1 (by decide)).trans
    (by decide)

/-- C7 is false on the code: a relaunch carrying a non-markdown argument
takes the `args.len() > 1` branch, fails the suffix test and does nothing —
in particular it does not request focus for the live `"main"` window. -/
theorem single_instance_nonmarkdown_arg_no_focus :
    single_instance_handler ⟨none, ⟨["main"], [], [], []⟩⟩
        ["app", "notes.txt"] =
      ⟨none, ⟨["main"], [], [], []⟩⟩ ∧
    (single_instance_handler ⟨none, ⟨["main"], [], [], []⟩⟩
        ["app", "notes.txt"]).host.focusRequests ≠ ["main"] := by
  decide

/-- C7 (amended): a relaunch with no argument at all requests focus for
`"main"` exactly when it is live; a relaunch whose argument does not end in a
markdown extension does nothing at all (no focus, no event); in either case
no event is emitted, no window is created and no error is raised. -/
theorem single_instance_no_qualifying_arg (s : ProcessState)
    (args : List String)
    (h : args.length ≤ 1 ∨
      (ends_with (args.getD 1 "") ".md" = false ∧
        ends_with (args.getD 1 "") ".markdown" = false)) :
    (single_instance_handler s args).openFile = s.openFile ∧
    (single_instance_handler s args).host.emitted = s.host.emitted ∧
    (single_instance_handler s args).host.windows = s.host.windows ∧
    (single_instance_handler s args).host.focusRequests =
      (if args.length ≤ 1 ∧ s.host.windows.contains "main" = true
        then s.host.focusRequests ++ ["main"]
        else s.host.focusRequests) := by
  by_cases hlen : 1 < args.length
  · have hmd : (ends_with (args.getD 1 "") ".md" ||
        ends_with (args.getD 1 "") ".markdown") = false := by
      rcases h with h | ⟨h1, h2⟩
      · omega
      · rw [h1, h2]; rfl
    have hif : ¬(args.length ≤ 1 ∧ s.host.windows.contains "main" = true) :=
      fun hc => absurd hc.1 (by omega)
    simp only [single_instance_handler]
    rw [if_pos hlen, hmd, if_neg Bool.false_ne_true, if_neg hif]
    exact ⟨rfl, rfl, rfl, rfl⟩
  · have hle : args.length ≤ 1 := by omega
    simp only [single_instance_handler]
    rw [if_neg hlen]
    by_cases hm : s.host.windows.contains "main" = true
    · rw [if_pos hm, if_pos ⟨hle, hm⟩]
      exact ⟨rfl, rfl, rfl, rfl⟩
    · have hmf : s.host.windows.contains "main" = false := by
        revert hm
        cases s.host.windows.contains "main" <;> simp
      rw [hmf, if_neg Bool.false_ne_true,
        if_neg (fun hc => Bool.false_ne_true hc.2)]
      exact ⟨rfl, rfl, rfl, rfl⟩

/-- C7 witness: relaunching with no argument while `"main"` is live only
requests focus for `"main"`. -/
theorem single_instance_no_qualifying_arg_witness :
    (["app"] : List String).length ≤ 1 ∧
    (single_instance_handler ⟨none, ⟨["main"], [], [], []⟩⟩
        ["app"]).host.focusRequests = ["main"] :=
  ⟨by decide,
    ((single_instance_no_qualifying_arg ⟨none, ⟨["main"], [], [], []⟩⟩ ["app"]
        (Or.inl (by decide))).2.2.2).trans (by decide)⟩

/-- C8: launch intake stores the first CLI argument if and only if an
argument is present and it ends in `.md` or `.markdown` (case-sensitive);
otherwise the state stays empty; the rest of the process state is untouched
and no error is produced on any path. -/
theorem setup_intake_stores_iff_markdown (s : ProcessState)
    (args : List String) (h : s.openFile = none) :
    ((setup_intake s args).openFile = some (args.getD 1 "") ↔
      (1 < args.length ∧
        (ends_with (args.getD 1 "") ".md" ||
          ends_with (args.getD 1 "") ".markdown") = true)) ∧
    ((setup_intake s args).openFile = none ∨
      (setup_intake s args).openFile = some (args.getD 1 "")) ∧
    (setup_intake s args).host = s.host := by
  by_cases h1 : 1 < args.length
  · by_cases h2 : (ends_with (args.getD 1 "") ".md" ||
        ends_with (args.getD 1 "") ".markdown") = true
    · simp only [setup_intake]
      rw [if_pos h1, if_pos h2]
      exact ⟨⟨fun _ => ⟨h1, h2⟩, fun _ => rfl⟩, Or.inr rfl, rfl⟩
    · simp only [setup_intake]
      rw [if_pos h1, if_neg h2, h]
      refine ⟨?_, Or.inl rfl, rfl⟩
      exact ⟨fun hsome => Option.noConfusion hsome,
        fun hc => absurd hc.2 h2⟩
  · simp only [setup_intake]
    rw [if_neg h1, h]
    refine ⟨?_, Or.inl rfl, rfl⟩
    exact ⟨fun hsome => Option.noConfusion hsome,
      fun hc => absurd hc.1 h1⟩

/-- C8 witness: launching with `notes.md` stores it; the state was empty. -/
theorem setup_intake_stores_iff_markdown_witness :
    (⟨none, ⟨[], [], [], []⟩⟩ : ProcessState).openFile = none ∧
    (setup_intake ⟨none, ⟨[], [], [], []⟩⟩ ["app", "notes.md"]).openFile =
      some "notes.md" :=
  ⟨rfl,
    (setup_intake_stores_iff_markdown ⟨none, ⟨[], [], [], []⟩⟩
        ["app", "notes.md"] rfl).1.mpr (by decide)⟩

/-- C9: `create_new_window` navigates the new window to `index.html` with the
percent-encoded path appended as the `file` query parameter when a path is
given (bare `index.html` otherwise); on success it focuses the new window and
returns its freshly allocated label; when the host cannot build or focus the
window, a string error is returned. -/
theorem create_new_window_spec (host : WindowHost) (counter : Nat)
    (file_path : Option String) (buildOk focusOk : Bool)
    (buildErr focusErr : String) :
    ((create_new_window host counter file_path buildOk focusOk buildErr
        focusErr).2.1.navigations =
      if buildOk then
        host.navigations ++ [("window-" ++ Nat.repr counter,
          match file_path with
          | some p => "index.html?file=" ++ urlencode p
          | none => "index.html")]
      else host.navigations) ∧
    (buildOk = true → focusOk = true →
      (create_new_window host counter file_path buildOk focusOk buildErr
          focusErr).1 = Except.ok ("window-" ++ Nat.repr counter) ∧
      (create_new_window host counter file_path buildOk focusOk buildErr
          focusErr).2.1.windows =
        host.windows ++ ["window-" ++ Nat.repr counter] ∧
      (create_new_window host counter file_path buildOk focusOk buildErr
          focusErr).2.1.focusRequests =
        host.focusRequests ++ ["window-" ++ Nat.repr counter]) ∧
    (buildOk = false →
      (create_new_window host counter file_path buildOk focusOk buildErr
          focusErr).1 = Except.error buildErr ∧
      (create_new_window host counter file_path buildOk focusOk buildErr
          focusErr).2.1 = host) ∧
    (buildOk = true → focusOk = false →
      (create_new_window host counter file_path buildOk focusOk buildErr
          focusErr).1 = Except.error focusErr) := by
  cases buildOk <;> cases focusOk <;> simp [create_new_window, fetchAdd]

/-- C9 witness: creating a window for `a b.md` from a fresh process yields
label `window-1` and navigation `index.html?file=a%20b.md`. -/
theorem create_new_window_spec_witness :
    (create_new_window ⟨[], [], [], []⟩ 1 (some "a b.md") true true
        "" "").1 = Except.ok ("window-" ++ Nat.repr 1) ∧
    (create_new_window ⟨[], [], [], []⟩ 1 (some "a b.md") true true
        "" "").2.1.navigations = [("window-1", "index.html?file=a%20b.md")] :=
  ⟨((create_new_window_spec ⟨[], [], [], []⟩ 1 (some "a b.md") true true
      "" "").2.1 rfl rfl).1,
    ((create_new_window_spec ⟨[], [], [], []⟩ 1 (some "a b.md") true true
      "" "").1).trans (by decide)⟩

end MerMark
